import Mathlib

/-!
Shallow embedding of the script-formatter ownership-scoped CRUD layer.

Source: src/db/tables.ts (table schemas) and src/src/actions/index.ts
(action handlers).  Tables are modelled as lists of records inside a
`Store`; dates are natural numbers; `crypto.randomUUID()` and `new Date()`
are passed in as explicit `newId` / `now` parameters.  Each action is a
function from its (raw) input, the optional authenticated user id, and the
store to a pair of an `Except` result and the resulting store; the store
is threaded through every path so that frame conditions on failure are
provable rather than assumed.

The action framework validates the zod input schema before invoking the
handler; a schema failure is surfaced as a typed input-error response.
We model that as a boolean validity check per action, run first, producing
an error with code `.validation` (the spec's VALIDATION kind).
-/

namespace ScriptFormatter

/-- A row of the Scripts table (src/db/tables.ts, `Scripts`). -/
structure Script where
  id : String
  userId : String
  title : String
  scriptType : Option String
  formatStandard : Option String
  logline : Option String
  status : Option String
  notes : Option String
  createdAt : Nat
  updatedAt : Nat
deriving DecidableEq, Repr

/-- A row of the ScriptVersions table (src/db/tables.ts, `ScriptVersions`). -/
structure ScriptVersion where
  id : String
  scriptId : String
  versionLabel : Option String
  isPreferred : Bool
  rawContent : String
  formattedContent : Option String
  createdAt : Nat
deriving DecidableEq, Repr

/-- A row of the ScriptElements table (src/db/tables.ts, `ScriptElements`). -/
structure ScriptElement where
  id : String
  scriptVersionId : String
  orderIndex : Int
  elementType : String
  characterName : Option String
  content : String
  createdAt : Nat
deriving DecidableEq, Repr

/-- The whole relational store: the three tables. -/
structure Store where
  scripts : List Script
  scriptVersions : List ScriptVersion
  scriptElements : List ScriptElement
deriving DecidableEq, Repr

/-- Error codes of the action layer: ActionError codes UNAUTHORIZED and
NOT_FOUND thrown by the handlers, plus the input-schema failure kind the
spec calls VALIDATION. -/
inductive ErrCode where
  | unauthorized
  | notFound
  | validation
deriving DecidableEq, Repr

/-- A typed action error: machine-readable code plus message. -/
structure ActionError where
  code : ErrCode
  message : String
deriving DecidableEq, Repr

def unauthorizedError : ActionError :=
  ⟨.unauthorized, "You must be signed in to perform this action."⟩

def scriptNotFoundError : ActionError :=
  ⟨.notFound, "Script not found."⟩

def versionNotFoundError : ActionError :=
  ⟨.notFound, "Script version not found."⟩

def elementNotFoundError : ActionError :=
  ⟨.notFound, "Script element not found."⟩

/-- The input-schema failure response (zod failure wrapped by the action
framework; the spec's VALIDATION error kind).  We track only the code. -/
def validationError : ActionError :=
  ⟨.validation, "Failed to validate input."⟩

/-- `z.string().min(1)`. -/
def minOne (s : String) : Bool := decide (1 ≤ s.length)

/-- `z.string().min(1).optional()`: absent, or present with length ≥ 1. -/
def optMinOne : Option String → Bool
  | none => true
  | some s => minOne s

/-- `requireUser` (src/src/actions/index.ts lines 12-24): the authenticated
user from the request context, or an UNAUTHORIZED ActionError. -/
def requireUser : Option String → Except ActionError String
  | none => .error unauthorizedError
  | some u => .ok u

/-- `getOwnedScript` (lines 26-40): select from Scripts where
id = scriptId AND userId = userId, take the first row; NOT_FOUND if none. -/
def getOwnedScript (scriptId userId : String) (s : Store) :
    Except ActionError Script :=
  match (s.scripts.filter (fun r => r.id == scriptId && r.userId == userId)).head? with
  | some script => .ok script
  | none => .error scriptNotFoundError

/-- `getOwnedVersion` (lines 42-60): resolve the owned Script first, then
select from ScriptVersions where id = versionId AND scriptId = scriptId;
NOT_FOUND if none. -/
def getOwnedVersion (versionId scriptId userId : String) (s : Store) :
    Except ActionError ScriptVersion :=
  match getOwnedScript scriptId userId s with
  | .error e => .error e
  | .ok _ =>
    match (s.scriptVersions.filter
        (fun v => v.id == versionId && v.scriptId == scriptId)).head? with
    | some version => .ok version
    | none => .error versionNotFoundError

/-- Input of createScript (lines 64-71). -/
structure CreateScriptInput where
  title : String
  scriptType : Option String
  formatStandard : Option String
  logline : Option String
  status : Option String
  notes : Option String
deriving DecidableEq, Repr

/-- createScript's zod schema: title is `z.string().min(1)`, the rest are
optional strings. -/
def createScriptValid (i : CreateScriptInput) : Bool := minOne i.title

/-- The row inserted by createScript (the `.values` object, lines 78-89):
fresh id, owner from the authenticated user, createdAt = updatedAt = now. -/
def newScriptRow (i : CreateScriptInput) (u : String) (now : Nat)
    (newId : String) : Script :=
  { id := newId, userId := u, title := i.title,
    scriptType := i.scriptType, formatStandard := i.formatStandard,
    logline := i.logline, status := i.status, notes := i.notes,
    createdAt := now, updatedAt := now }

/-- createScript (lines 63-94): authenticate, then insert a new Script
owned by the caller, returning the inserted row. -/
def createScript (i : CreateScriptInput) (user : Option String)
    (now : Nat) (newId : String) (s : Store) :
    Except ActionError (Option Script) × Store :=
  if createScriptValid i then
    match requireUser user with
    | .error e => (.error e, s)
    | .ok u =>
      let inserted := [newScriptRow i u now newId]
      (.ok inserted.head?, { s with scripts := s.scripts ++ inserted })
  else (.error validationError, s)

/-- Input of updateScript (lines 97-106). -/
structure UpdateScriptInput where
  id : String
  title : Option String
  scriptType : Option String
  formatStandard : Option String
  logline : Option String
  status : Option String
  notes : Option String
deriving DecidableEq, Repr

/-- The `.refine` on updateScript's schema (lines 107-116): at least one
updatable field must be provided. -/
def updateScriptAnyField (i : UpdateScriptInput) : Bool :=
  i.title.isSome || i.scriptType.isSome || i.formatStandard.isSome ||
    i.logline.isSome || i.status.isSome || i.notes.isSome

/-- updateScript's zod schema: id min(1), title min(1) when present,
plus the at-least-one-field refinement. -/
def updateScriptValid (i : UpdateScriptInput) : Bool :=
  minOne i.id && optMinOne i.title && updateScriptAnyField i

/-- The object-spread patch of updateScript's `.set` (lines 123-131):
each provided field overwrites, each omitted field is left untouched;
updatedAt is always refreshed. -/
def applyScriptPatch (i : UpdateScriptInput) (now : Nat) (r : Script) : Script :=
  { r with
    title := i.title.getD r.title,
    scriptType := match i.scriptType with | some v => some v | none => r.scriptType,
    formatStandard := match i.formatStandard with | some v => some v | none => r.formatStandard,
    logline := match i.logline with | some v => some v | none => r.logline,
    status := match i.status with | some v => some v | none => r.status,
    notes := match i.notes with | some v => some v | none => r.notes,
    updatedAt := now }

/-- updateScript (lines 96-137): authenticate, resolve the owned Script,
update the rows where id matches, return the first updated row. -/
def updateScript (i : UpdateScriptInput) (user : Option String)
    (now : Nat) (s : Store) :
    Except ActionError (Option Script) × Store :=
  if updateScriptValid i then
    match requireUser user with
    | .error e => (.error e, s)
    | .ok u =>
      match getOwnedScript i.id u s with
      | .error e => (.error e, s)
      | .ok _ =>
        let scripts2 := s.scripts.map
          (fun r => if r.id == i.id then applyScriptPatch i now r else r)
        let returned := scripts2.filter (fun r => r.id == i.id)
        (.ok returned.head?, { s with scripts := scripts2 })
  else (.error validationError, s)

/-- listScripts (lines 139-151): authenticate, select all Scripts with the
caller's userId, return items plus count. -/
def listScripts (user : Option String) (s : Store) :
    Except ActionError (List Script × Nat) × Store :=
  match requireUser user with
  | .error e => (.error e, s)
  | .ok u =>
    let scripts := s.scripts.filter (fun r => r.userId == u)
    (.ok (scripts, scripts.length), s)

/-- Input of createScriptVersion (lines 154-160). -/
structure CreateScriptVersionInput where
  scriptId : String
  versionLabel : Option String
  isPreferred : Option Bool
  rawContent : String
  formattedContent : Option String
deriving DecidableEq, Repr

/-- createScriptVersion's zod schema: scriptId min(1), rawContent min(1). -/
def createScriptVersionValid (i : CreateScriptVersionInput) : Bool :=
  minOne i.scriptId && minOne i.rawContent

/-- The row inserted by createScriptVersion (the `.values` object,
lines 167-175); isPreferred defaults false via `?? false`. -/
def newVersionRow (i : CreateScriptVersionInput) (now : Nat)
    (newId : String) : ScriptVersion :=
  { id := newId, scriptId := i.scriptId,
    versionLabel := i.versionLabel,
    isPreferred := i.isPreferred.getD false,
    rawContent := i.rawContent,
    formattedContent := i.formattedContent,
    createdAt := now }

/-- createScriptVersion (lines 153-180): authenticate, resolve the owned
Script, insert a new version. -/
def createScriptVersion (i : CreateScriptVersionInput) (user : Option String)
    (now : Nat) (newId : String) (s : Store) :
    Except ActionError (Option ScriptVersion) × Store :=
  if createScriptVersionValid i then
    match requireUser user with
    | .error e => (.error e, s)
    | .ok u =>
      match getOwnedScript i.scriptId u s with
      | .error e => (.error e, s)
      | .ok _ =>
        let inserted := [newVersionRow i now newId]
        (.ok inserted.head?,
          { s with scriptVersions := s.scriptVersions ++ inserted })
  else (.error validationError, s)

/-- Input of updateScriptVersion (lines 183-191).  Note rawContent is
`z.string().optional()` with no minimum length. -/
structure UpdateScriptVersionInput where
  id : String
  scriptId : String
  versionLabel : Option String
  isPreferred : Option Bool
  rawContent : Option String
  formattedContent : Option String
deriving DecidableEq, Repr

/-- The `.refine` on updateScriptVersion's schema (lines 192-199). -/
def updateScriptVersionAnyField (i : UpdateScriptVersionInput) : Bool :=
  i.versionLabel.isSome || i.isPreferred.isSome || i.rawContent.isSome ||
    i.formattedContent.isSome

/-- updateScriptVersion's zod schema. -/
def updateScriptVersionValid (i : UpdateScriptVersionInput) : Bool :=
  minOne i.id && minOne i.scriptId && updateScriptVersionAnyField i

/-- The object-spread patch of updateScriptVersion's `.set` (lines 206-213). -/
def applyVersionPatch (i : UpdateScriptVersionInput) (v : ScriptVersion) :
    ScriptVersion :=
  { v with
    versionLabel := match i.versionLabel with | some x => some x | none => v.versionLabel,
    isPreferred := i.isPreferred.getD v.isPreferred,
    rawContent := i.rawContent.getD v.rawContent,
    formattedContent := match i.formattedContent with | some x => some x | none => v.formattedContent }

/-- updateScriptVersion (lines 182-219): authenticate, resolve the owned
version, update the rows where id matches (the where clause is on id
alone), return the first updated row. -/
def updateScriptVersion (i : UpdateScriptVersionInput) (user : Option String)
    (s : Store) : Except ActionError (Option ScriptVersion) × Store :=
  if updateScriptVersionValid i then
    match requireUser user with
    | .error e => (.error e, s)
    | .ok u =>
      match getOwnedVersion i.id i.scriptId u s with
      | .error e => (.error e, s)
      | .ok _ =>
        let versions2 := s.scriptVersions.map
          (fun v => if v.id == i.id then applyVersionPatch i v else v)
        let returned := versions2.filter (fun v => v.id == i.id)
        (.ok returned.head?, { s with scriptVersions := versions2 })
  else (.error validationError, s)

/-- Input of deleteScriptVersion (lines 222-225). -/
structure DeleteScriptVersionInput where
  id : String
  scriptId : String
deriving DecidableEq, Repr

def deleteScriptVersionValid (i : DeleteScriptVersionInput) : Bool :=
  minOne i.id && minOne i.scriptId

/-- deleteScriptVersion (lines 221-240): authenticate, resolve the owned
version, delete where id matches, then NOT_FOUND if zero rows affected. -/
def deleteScriptVersion (i : DeleteScriptVersionInput) (user : Option String)
    (s : Store) : Except ActionError Unit × Store :=
  if deleteScriptVersionValid i then
    match requireUser user with
    | .error e => (.error e, s)
    | .ok u =>
      match getOwnedVersion i.id i.scriptId u s with
      | .error e => (.error e, s)
      | .ok _ =>
        if s.scriptVersions.length
            - (s.scriptVersions.filter (fun v => !(v.id == i.id))).length
            == 0 then
          (.error versionNotFoundError,
            { s with scriptVersions :=
                s.scriptVersions.filter (fun v => !(v.id == i.id)) })
        else
          (.ok (),
            { s with scriptVersions :=
                s.scriptVersions.filter (fun v => !(v.id == i.id)) })
  else (.error validationError, s)

/-- Input of listScriptVersions (lines 243-246); preferredOnly carries
zod's `.default(false)`, so an absent value reads as false. -/
structure ListScriptVersionsInput where
  scriptId : String
  preferredOnly : Option Bool
deriving DecidableEq, Repr

def listScriptVersionsValid (i : ListScriptVersionsInput) : Bool :=
  minOne i.scriptId

/-- listScriptVersions (lines 242-265): authenticate, resolve the owned
Script, select versions of that script, restricted to isPreferred = true
when preferredOnly is set; return items plus count. -/
def listScriptVersions (i : ListScriptVersionsInput) (user : Option String)
    (s : Store) : Except ActionError (List ScriptVersion × Nat) × Store :=
  if listScriptVersionsValid i then
    match requireUser user with
    | .error e => (.error e, s)
    | .ok u =>
      match getOwnedScript i.scriptId u s with
      | .error e => (.error e, s)
      | .ok _ =>
        let versions :=
          if i.preferredOnly.getD false then
            s.scriptVersions.filter
              (fun v => v.scriptId == i.scriptId && v.isPreferred == true)
          else
            s.scriptVersions.filter (fun v => v.scriptId == i.scriptId)
        (.ok (versions, versions.length), s)
  else (.error validationError, s)

/-- Input of createScriptElement (lines 268-275). -/
structure CreateScriptElementInput where
  scriptId : String
  scriptVersionId : String
  orderIndex : Int
  elementType : String
  characterName : Option String
  content : String
deriving DecidableEq, Repr

def createScriptElementValid (i : CreateScriptElementInput) : Bool :=
  minOne i.scriptId && minOne i.scriptVersionId && minOne i.elementType &&
    minOne i.content

/-- The row inserted by createScriptElement (the `.values` object,
lines 282-290): the element is created under the claimed scriptVersionId. -/
def newElementRow (i : CreateScriptElementInput) (now : Nat)
    (newId : String) : ScriptElement :=
  { id := newId, scriptVersionId := i.scriptVersionId,
    orderIndex := i.orderIndex, elementType := i.elementType,
    characterName := i.characterName, content := i.content,
    createdAt := now }

/-- createScriptElement (lines 267-295): authenticate, resolve the owned
version for (scriptVersionId, scriptId), insert a new element under the
claimed scriptVersionId. -/
def createScriptElement (i : CreateScriptElementInput) (user : Option String)
    (now : Nat) (newId : String) (s : Store) :
    Except ActionError (Option ScriptElement) × Store :=
  if createScriptElementValid i then
    match requireUser user with
    | .error e => (.error e, s)
    | .ok u =>
      match getOwnedVersion i.scriptVersionId i.scriptId u s with
      | .error e => (.error e, s)
      | .ok _ =>
        let inserted := [newElementRow i now newId]
        (.ok inserted.head?,
          { s with scriptElements := s.scriptElements ++ inserted })
  else (.error validationError, s)

/-- Input of updateScriptElement (lines 298-307). -/
structure UpdateScriptElementInput where
  id : String
  scriptId : String
  scriptVersionId : String
  orderIndex : Option Int
  elementType : Option String
  characterName : Option String
  content : Option String
deriving DecidableEq, Repr

/-- The `.refine` on updateScriptElement's schema (lines 308-315). -/
def updateScriptElementAnyField (i : UpdateScriptElementInput) : Bool :=
  i.orderIndex.isSome || i.elementType.isSome || i.characterName.isSome ||
    i.content.isSome

def updateScriptElementValid (i : UpdateScriptElementInput) : Bool :=
  minOne i.id && minOne i.scriptId && minOne i.scriptVersionId &&
    updateScriptElementAnyField i

/-- The object-spread patch of updateScriptElement's `.set` (lines 334-339). -/
def applyElementPatch (i : UpdateScriptElementInput) (e : ScriptElement) :
    ScriptElement :=
  { e with
    orderIndex := i.orderIndex.getD e.orderIndex,
    elementType := i.elementType.getD e.elementType,
    characterName := match i.characterName with | some x => some x | none => e.characterName,
    content := i.content.getD e.content }

/-- updateScriptElement (lines 297-345): authenticate, resolve the owned
version for (scriptVersionId, scriptId), then select the element by id
alone (NOT_FOUND if absent), update the rows where id matches, return the
first updated row. -/
def updateScriptElement (i : UpdateScriptElementInput) (user : Option String)
    (s : Store) : Except ActionError (Option ScriptElement) × Store :=
  if updateScriptElementValid i then
    match requireUser user with
    | .error e => (.error e, s)
    | .ok u =>
      match getOwnedVersion i.scriptVersionId i.scriptId u s with
      | .error e => (.error e, s)
      | .ok _ =>
        match (s.scriptElements.filter (fun e => e.id == i.id)).head? with
        | none => (.error elementNotFoundError, s)
        | some _ =>
          let elements2 := s.scriptElements.map
            (fun e => if e.id == i.id then applyElementPatch i e else e)
          let returned := elements2.filter (fun e => e.id == i.id)
          (.ok returned.head?, { s with scriptElements := elements2 })
  else (.error validationError, s)

/-- Input of deleteScriptElement (lines 348-352). -/
structure DeleteScriptElementInput where
  id : String
  scriptId : String
  scriptVersionId : String
deriving DecidableEq, Repr

def deleteScriptElementValid (i : DeleteScriptElementInput) : Bool :=
  minOne i.id && minOne i.scriptId && minOne i.scriptVersionId

/-- deleteScriptElement (lines 347-367): authenticate, resolve the owned
version, delete elements where id matches, then NOT_FOUND if zero rows
affected. -/
def deleteScriptElement (i : DeleteScriptElementInput) (user : Option String)
    (s : Store) : Except ActionError Unit × Store :=
  if deleteScriptElementValid i then
    match requireUser user with
    | .error e => (.error e, s)
    | .ok u =>
      match getOwnedVersion i.scriptVersionId i.scriptId u s with
      | .error e => (.error e, s)
      | .ok _ =>
        if s.scriptElements.length
            - (s.scriptElements.filter (fun e => !(e.id == i.id))).length
            == 0 then
          (.error elementNotFoundError,
            { s with scriptElements :=
                s.scriptElements.filter (fun e => !(e.id == i.id)) })
        else
          (.ok (),
            { s with scriptElements :=
                s.scriptElements.filter (fun e => !(e.id == i.id)) })
  else (.error validationError, s)

/-- Input of listScriptElements (lines 370-373). -/
structure ListScriptElementsInput where
  scriptId : String
  scriptVersionId : String
deriving DecidableEq, Repr

def listScriptElementsValid (i : ListScriptElementsInput) : Bool :=
  minOne i.scriptId && minOne i.scriptVersionId

/-- listScriptElements (lines 369-385): authenticate, resolve the owned
version, select all elements with the claimed scriptVersionId; return
items plus count. -/
def listScriptElements (i : ListScriptElementsInput) (user : Option String)
    (s : Store) : Except ActionError (List ScriptElement × Nat) × Store :=
  if listScriptElementsValid i then
    match requireUser user with
    | .error e => (.error e, s)
    | .ok u =>
      match getOwnedVersion i.scriptVersionId i.scriptId u s with
      | .error e => (.error e, s)
      | .ok _ =>
        let elements := s.scriptElements.filter
          (fun e => e.scriptVersionId == i.scriptVersionId)
        (.ok (elements, elements.length), s)
  else (.error validationError, s)

/-! ### Helper lemmas about the ownership resolvers -/

/-- A successful `getOwnedScript` returns a stored row matching both the
id and the owner filter. -/
theorem getOwnedScript_ok {sid uid : String} {s : Store} {sc : Script}
    (h : getOwnedScript sid uid s = .ok sc) :
    sc ∈ s.scripts ∧ sc.id = sid ∧ sc.userId = uid := by
  unfold getOwnedScript at h
  cases hh : (s.scripts.filter (fun r => r.id == sid && r.userId == uid)).head? with
  | none => rw [hh] at h; exact absurd h (by simp)
  | some x =>
    rw [hh] at h
    obtain rfl : x = sc := by injection h
    have hm := List.mem_of_mem_head? hh
    rw [List.mem_filter] at hm
    obtain ⟨hmem, hp⟩ := hm
    simp only [Bool.and_eq_true, beq_iff_eq] at hp
    exact ⟨hmem, hp.1, hp.2⟩

/-- When some stored row matches the id and owner, `getOwnedScript`
succeeds. -/
theorem getOwnedScript_exists_ok {sid uid : String} {s : Store}
    (h : ∃ sc ∈ s.scripts, sc.id = sid ∧ sc.userId = uid) :
    ∃ sc, getOwnedScript sid uid s = .ok sc := by
  unfold getOwnedScript
  obtain ⟨sc, hmem, h1, h2⟩ := h
  cases hh : (s.scripts.filter (fun r => r.id == sid && r.userId == uid)).head? with
  | none =>
    rw [List.head?_eq_none_iff, List.filter_eq_nil_iff] at hh
    exact absurd (by simp [h1, h2]) (hh sc hmem)
  | some x => exact ⟨x, rfl⟩

/-- When no stored row matches the id and owner, `getOwnedScript` fails
with the NOT_FOUND script error. -/
theorem getOwnedScript_none {sid uid : String} {s : Store}
    (h : ∀ sc ∈ s.scripts, ¬(sc.id = sid ∧ sc.userId = uid)) :
    getOwnedScript sid uid s = .error scriptNotFoundError := by
  unfold getOwnedScript
  cases hh : (s.scripts.filter (fun r => r.id == sid && r.userId == uid)).head? with
  | none => rfl
  | some x =>
    have hm := List.mem_of_mem_head? hh
    rw [List.mem_filter] at hm
    obtain ⟨hmem, hp⟩ := hm
    simp only [Bool.and_eq_true, beq_iff_eq] at hp
    exact absurd hp (h x hmem)

/-- A successful `getOwnedVersion` means the Script resolved for the
caller and the returned version matches both the version id and the
claimed scriptId. -/
theorem getOwnedVersion_ok {vid sid uid : String} {s : Store} {v : ScriptVersion}
    (h : getOwnedVersion vid sid uid s = .ok v) :
    (∃ sc ∈ s.scripts, sc.id = sid ∧ sc.userId = uid) ∧
      v ∈ s.scriptVersions ∧ v.id = vid ∧ v.scriptId = sid := by
  unfold getOwnedVersion at h
  cases hsc : getOwnedScript sid uid s with
  | error e => rw [hsc] at h; exact absurd h (by simp)
  | ok sc =>
    rw [hsc] at h
    obtain ⟨hmem, h1, h2⟩ := getOwnedScript_ok hsc
    cases hh : (s.scriptVersions.filter (fun w => w.id == vid && w.scriptId == sid)).head? with
    | none => rw [hh] at h; exact absurd h (by simp)
    | some x =>
      rw [hh] at h
      obtain rfl : x = v := by injection h
      have hm := List.mem_of_mem_head? hh
      rw [List.mem_filter] at hm
      obtain ⟨hvm, hp⟩ := hm
      simp only [Bool.and_eq_true, beq_iff_eq] at hp
      exact ⟨⟨sc, hmem, h1, h2⟩, hvm, hp.1, hp.2⟩

/-- When the Script resolves but no version row matches (id, scriptId),
`getOwnedVersion` fails with the NOT_FOUND version error — this covers a
version id that exists only under a different script. -/
theorem getOwnedVersion_none {vid sid uid : String} {s : Store}
    (hsc : ∃ sc ∈ s.scripts, sc.id = sid ∧ sc.userId = uid)
    (h : ∀ v ∈ s.scriptVersions, ¬(v.id = vid ∧ v.scriptId = sid)) :
    getOwnedVersion vid sid uid s = .error versionNotFoundError := by
  unfold getOwnedVersion
  obtain ⟨sc, hok⟩ := getOwnedScript_exists_ok hsc
  rw [hok]
  cases hh : (s.scriptVersions.filter (fun w => w.id == vid && w.scriptId == sid)).head? with
  | none => rfl
  | some x =>
    have hm := List.mem_of_mem_head? hh
    rw [List.mem_filter] at hm
    obtain ⟨hvm, hp⟩ := hm
    simp only [Bool.and_eq_true, beq_iff_eq] at hp
    exact absurd hp (h x hvm)

/-- When some version row matches (id, scriptId) and the Script resolves,
`getOwnedVersion` succeeds. -/
theorem getOwnedVersion_exists_ok {vid sid uid : String} {s : Store}
    (hsc : ∃ sc ∈ s.scripts, sc.id = sid ∧ sc.userId = uid)
    (h : ∃ v ∈ s.scriptVersions, v.id = vid ∧ v.scriptId = sid) :
    ∃ v, getOwnedVersion vid sid uid s = .ok v := by
  unfold getOwnedVersion
  obtain ⟨sc, hok⟩ := getOwnedScript_exists_ok hsc
  rw [hok]
  obtain ⟨v, hvm, h1, h2⟩ := h
  cases hh : (s.scriptVersions.filter (fun w => w.id == vid && w.scriptId == sid)).head? with
  | none =>
    rw [List.head?_eq_none_iff, List.filter_eq_nil_iff] at hh
    exact absurd (by simp [h1, h2]) (hh v hvm)
  | some x => exact ⟨x, rfl⟩

/-! ### Sample data used by witnesses and counterexamples -/

def sampleScript : Script :=
  { id := "s1", userId := "u1", title := "Heist", scriptType := none,
    formatStandard := none, logline := none, status := none, notes := none,
    createdAt := 0, updatedAt := 0 }

def sampleScript2 : Script :=
  { id := "s2", userId := "u2", title := "Other", scriptType := none,
    formatStandard := none, logline := none, status := none, notes := none,
    createdAt := 0, updatedAt := 0 }

def sampleVersion : ScriptVersion :=
  { id := "v1", scriptId := "s1", versionLabel := none, isPreferred := false,
    rawContent := "INT. BANK", formattedContent := none, createdAt := 0 }

def sampleVersion2 : ScriptVersion :=
  { id := "v2", scriptId := "s2", versionLabel := none, isPreferred := true,
    rawContent := "EXT. SECRET", formattedContent := none, createdAt := 0 }

def sampleVersion3 : ScriptVersion :=
  { id := "v3", scriptId := "s1", versionLabel := some "Shooting Draft",
    isPreferred := true, rawContent := "INT. VAULT", formattedContent := none,
    createdAt := 0 }

def sampleElement : ScriptElement :=
  { id := "e1", scriptVersionId := "v2", orderIndex := 0,
    elementType := "action", characterName := none, content := "secret",
    createdAt := 0 }

def sampleStore : Store :=
  { scripts := [sampleScript, sampleScript2],
    scriptVersions := [sampleVersion, sampleVersion2, sampleVersion3],
    scriptElements := [sampleElement] }

/-! ### C2: the resolveScript contract -/

/-- C2: `getOwnedScript` succeeds exactly when a row with the given id and
owner exists, fails with the NOT_FOUND script error otherwise, and after
`createScript` by user u the new id resolves for u while any other user
gets the very same NOT_FOUND error as a nonexistent id. -/
theorem claim2_resolveScript (sid uid : String) (s : Store) :
    ((∃ sc ∈ s.scripts, sc.id = sid ∧ sc.userId = uid) →
        ∃ sc, getOwnedScript sid uid s = .ok sc) ∧
    ((∀ sc ∈ s.scripts, ¬(sc.id = sid ∧ sc.userId = uid)) →
        getOwnedScript sid uid s = .error scriptNotFoundError) ∧
    (∀ sc, getOwnedScript sid uid s = .ok sc →
        sc ∈ s.scripts ∧ sc.id = sid ∧ sc.userId = uid) ∧
    (∀ (ci : CreateScriptInput) (u : String) (now : Nat) (newId : String)
        (out : Option Script) (s' : Store),
      createScript ci (some u) now newId s = (.ok out, s') →
        (∃ sc, getOwnedScript newId u s' = .ok sc) ∧
        (∀ v, v ≠ u → (∀ sc ∈ s.scripts, sc.id ≠ newId) →
          getOwnedScript newId v s' = .error scriptNotFoundError)) := by
  refine ⟨getOwnedScript_exists_ok, getOwnedScript_none,
    fun sc h => getOwnedScript_ok h, ?_⟩
  intro ci u now newId out s' h
  unfold createScript at h
  split at h
  · simp only [requireUser, Prod.mk.injEq] at h
    obtain ⟨-, hs'⟩ := h
    subst hs'
    constructor
    · apply getOwnedScript_exists_ok
      refine ⟨newScriptRow ci u now newId, ?_, rfl, rfl⟩
      simp
    · intro v hvu hfresh
      apply getOwnedScript_none
      intro sc hmem hc
      simp only [List.mem_append, List.mem_singleton] at hmem
      rcases hmem with hm | rfl
      · exact hfresh sc hm hc.1
      · exact hvu hc.2.symm
  · exact absurd h (by simp)

/-- C2 witness: in the sample store, the owner resolves their script and a
different user receives the NOT_FOUND script error. -/
theorem claim2_witness :
    (∃ sc, getOwnedScript "s1" "u1" sampleStore = .ok sc) ∧
    getOwnedScript "s1" "u3" sampleStore = .error scriptNotFoundError := by
  refine ⟨(claim2_resolveScript "s1" "u1" sampleStore).1 ?_,
    (claim2_resolveScript "s1" "u3" sampleStore).2.1 ?_⟩
  · exact ⟨sampleScript, by simp [sampleStore], rfl, rfl⟩
  · decide

/-! ### C5: zero-field patches are rejected with VALIDATION -/

/-- C5: for each of the three update operations, a patch supplying none of
the updatable fields fails the schema's refinement and is rejected with
the VALIDATION error; the result is the same for every user and every
store, and the store is returned unchanged — no storage operation runs. -/
theorem claim5_emptyPatchRejected
    (ui : UpdateScriptInput) (vi : UpdateScriptVersionInput)
    (ei : UpdateScriptElementInput) (user : Option String) (now : Nat)
    (s : Store)
    (hu : ui.title = none ∧ ui.scriptType = none ∧ ui.formatStandard = none ∧
      ui.logline = none ∧ ui.status = none ∧ ui.notes = none)
    (hv : vi.versionLabel = none ∧ vi.isPreferred = none ∧
      vi.rawContent = none ∧ vi.formattedContent = none)
    (he : ei.orderIndex = none ∧ ei.elementType = none ∧
      ei.characterName = none ∧ ei.content = none) :
    updateScript ui user now s = (.error validationError, s) ∧
    updateScriptVersion vi user s = (.error validationError, s) ∧
    updateScriptElement ei user s = (.error validationError, s) := by
  obtain ⟨h1, h2, h3, h4, h5, h6⟩ := hu
  obtain ⟨g1, g2, g3, g4⟩ := hv
  obtain ⟨k1, k2, k3, k4⟩ := he
  refine ⟨?_, ?_, ?_⟩
  · unfold updateScript updateScriptValid updateScriptAnyField
    simp [h1, h2, h3, h4, h5, h6]
  · unfold updateScriptVersion updateScriptVersionValid
      updateScriptVersionAnyField
    simp [g1, g2, g3, g4]
  · unfold updateScriptElement updateScriptElementValid
      updateScriptElementAnyField
    simp [k1, k2, k3, k4]

/-- C5 witness: concrete zero-field patches against the sample store are
rejected with the VALIDATION error and leave the store unchanged. -/
theorem claim5_witness :
    updateScript ⟨"s1", none, none, none, none, none, none⟩ (some "u1") 5
        sampleStore = (.error validationError, sampleStore) ∧
    updateScriptVersion ⟨"v1", "s1", none, none, none, none⟩ (some "u1")
        sampleStore = (.error validationError, sampleStore) ∧
    updateScriptElement ⟨"e1", "s1", "v1", none, none, none, none⟩
        (some "u1") sampleStore = (.error validationError, sampleStore) :=
  claim5_emptyPatchRejected ⟨"s1", none, none, none, none, none, none⟩
    ⟨"v1", "s1", none, none, none, none⟩
    ⟨"e1", "s1", "v1", none, none, none, none⟩ (some "u1") 5 sampleStore
    ⟨rfl, rfl, rfl, rfl, rfl, rfl⟩ ⟨rfl, rfl, rfl, rfl⟩ ⟨rfl, rfl, rfl, rfl⟩

/-! ### C9: ordering of the UNAUTHORIZED check -/

/-- C9 counterexample: with no authenticated caller AND a payload that
fails input validation (a zero-field patch), the response carries the
VALIDATION code, not UNAUTHORIZED — the schema is validated before the
handler's auth check runs, contradicting the claim that UNAUTHORIZED is
raised before any other validation. -/
theorem claim9_counterexample :
    updateScript ⟨"s1", none, none, none, none, none, none⟩ none 0 sampleStore
      = (.error validationError, sampleStore) ∧
    validationError.code = .validation ∧
    validationError.code ≠ unauthorizedError.code := by
  exact ⟨rfl, rfl, by decide⟩

/-- C9 amended: for every operation whose payload passes input validation,
a missing caller identity yields the UNAUTHORIZED error before ownership
resolution or any storage access — the result is independent of the store
contents and the store is returned unchanged.  (When the payload fails
input validation, the VALIDATION response is produced first instead.) -/
theorem claim9_unauthorizedBeforeResolution
    (ci : CreateScriptInput) (ui : UpdateScriptInput)
    (cvi : CreateScriptVersionInput) (uvi : UpdateScriptVersionInput)
    (dvi : DeleteScriptVersionInput) (lvi : ListScriptVersionsInput)
    (cei : CreateScriptElementInput) (uei : UpdateScriptElementInput)
    (dei : DeleteScriptElementInput) (lei : ListScriptElementsInput)
    (now : Nat) (newId : String) (s : Store)
    (h1 : createScriptValid ci = true)
    (h2 : updateScriptValid ui = true)
    (h3 : createScriptVersionValid cvi = true)
    (h4 : updateScriptVersionValid uvi = true)
    (h5 : deleteScriptVersionValid dvi = true)
    (h6 : listScriptVersionsValid lvi = true)
    (h7 : createScriptElementValid cei = true)
    (h8 : updateScriptElementValid uei = true)
    (h9 : deleteScriptElementValid dei = true)
    (h10 : listScriptElementsValid lei = true) :
    createScript ci none now newId s = (.error unauthorizedError, s) ∧
    updateScript ui none now s = (.error unauthorizedError, s) ∧
    listScripts none s = (.error unauthorizedError, s) ∧
    createScriptVersion cvi none now newId s = (.error unauthorizedError, s) ∧
    updateScriptVersion uvi none s = (.error unauthorizedError, s) ∧
    deleteScriptVersion dvi none s = (.error unauthorizedError, s) ∧
    listScriptVersions lvi none s = (.error unauthorizedError, s) ∧
    createScriptElement cei none now newId s = (.error unauthorizedError, s) ∧
    updateScriptElement uei none s = (.error unauthorizedError, s) ∧
    deleteScriptElement dei none s = (.error unauthorizedError, s) ∧
    listScriptElements lei none s = (.error unauthorizedError, s) := by
  refine ⟨?_, ?_, ?_, ?_, ?_, ?_, ?_, ?_, ?_, ?_, ?_⟩
  · simp [createScript, h1, requireUser]
  · simp [updateScript, h2, requireUser]
  · simp [listScripts, requireUser]
  · simp [createScriptVersion, h3, requireUser]
  · simp [updateScriptVersion, h4, requireUser]
  · simp [deleteScriptVersion, h5, requireUser]
  · simp [listScriptVersions, h6, requireUser]
  · simp [createScriptElement, h7, requireUser]
  · simp [updateScriptElement, h8, requireUser]
  · simp [deleteScriptElement, h9, requireUser]
  · simp [listScriptElements, h10, requireUser]

/-- C9 witness: concrete valid payloads with no caller identity all
receive the UNAUTHORIZED error against the sample store. -/
theorem claim9_witness :
    createScript ⟨"T", none, none, none, none, none⟩ none 0 "n1" sampleStore
        = (.error unauthorizedError, sampleStore) ∧
    updateScript ⟨"s1", some "T2", none, none, none, none, none⟩ none 0
        sampleStore = (.error unauthorizedError, sampleStore) ∧
    listScripts none sampleStore = (.error unauthorizedError, sampleStore) ∧
    createScriptVersion ⟨"s1", none, none, "X", none⟩ none 0 "n2" sampleStore
        = (.error unauthorizedError, sampleStore) ∧
    updateScriptVersion ⟨"v1", "s1", none, none, some "Y", none⟩ none
        sampleStore = (.error unauthorizedError, sampleStore) ∧
    deleteScriptVersion ⟨"v1", "s1"⟩ none sampleStore
        = (.error unauthorizedError, sampleStore) ∧
    listScriptVersions ⟨"s1", none⟩ none sampleStore
        = (.error unauthorizedError, sampleStore) ∧
    createScriptElement ⟨"s1", "v1", 0, "action", none, "Z"⟩ none 0 "n3"
        sampleStore = (.error unauthorizedError, sampleStore) ∧
    updateScriptElement ⟨"e1", "s1", "v1", some 1, none, none, none⟩ none
        sampleStore = (.error unauthorizedError, sampleStore) ∧
    deleteScriptElement ⟨"e1", "s1", "v1"⟩ none sampleStore
        = (.error unauthorizedError, sampleStore) ∧
    listScriptElements ⟨"s1", "v1"⟩ none sampleStore
        = (.error unauthorizedError, sampleStore) :=
  claim9_unauthorizedBeforeResolution
    ⟨"T", none, none, none, none, none⟩
    ⟨"s1", some "T2", none, none, none, none, none⟩
    ⟨"s1", none, none, "X", none⟩
    ⟨"v1", "s1", none, none, some "Y", none⟩
    ⟨"v1", "s1"⟩ ⟨"s1", none⟩
    ⟨"s1", "v1", 0, "action", none, "Z"⟩
    ⟨"e1", "s1", "v1", some 1, none, none, none⟩
    ⟨"e1", "s1", "v1"⟩ ⟨"s1", "v1"⟩ 0 "n1" sampleStore
    rfl rfl rfl rfl rfl rfl rfl rfl rfl rfl

/-! ### C10: empty rawContent reachable through updateScriptVersion -/

/-- The store after creating a script owned by u1 from the empty store. -/
def c10store1 : Store :=
  (createScript ⟨"Heist", none, none, none, none, none⟩ (some "u1") 0 "s1"
    ⟨[], [], []⟩).2

/-- The store after also creating a version with non-empty rawContent. -/
def c10store2 : Store :=
  (createScriptVersion ⟨"s1", none, none, "INT. BANK", none⟩ (some "u1") 1
    "v1" c10store1).2

/-- The run that patches the version's rawContent to the empty string. -/
def c10update : Except ActionError (Option ScriptVersion) × Store :=
  updateScriptVersion ⟨"v1", "s1", none, none, some "", none⟩ (some "u1")
    c10store2

/-- C10: createScriptVersion rejects an empty rawContent (schema min(1)),
but updateScriptVersion accepts rawContent = "" (no minimum on its
schema), so after create-then-update a stored ScriptVersion has
rawContent = "" even though rawContent is required non-empty at creation. -/
theorem claim10_emptyRawContentReachable :
    (createScriptVersion ⟨"s1", none, none, "", none⟩ (some "u1") 1 "vX"
        c10store2).1 = .error validationError ∧
    (∃ out, c10update.1 = .ok out) ∧
    ∃ v ∈ c10update.2.scriptVersions, v.rawContent = "" := by
  refine ⟨rfl, ⟨(c10update.1.toOption).join, ?_⟩, ?_⟩
  · rfl
  · exact ⟨⟨"v1", "s1", none, false, "", none, 1⟩, by decide, rfl⟩

/-! ### State-shape lemmas for the update handlers -/

/-- A successful updateScript leaves the other tables alone and replaces
the scripts table by the patched map over the matching id. -/
theorem updateScript_ok {i : UpdateScriptInput} {user : Option String}
    {now : Nat} {s : Store} {out : Option Script} {s' : Store}
    (h : updateScript i user now s = (.ok out, s')) :
    s'.scripts = s.scripts.map
        (fun r => if r.id == i.id then applyScriptPatch i now r else r) ∧
    s'.scriptVersions = s.scriptVersions ∧
    s'.scriptElements = s.scriptElements := by
  unfold updateScript at h
  split at h
  · cases user with
    | none => exact absurd h (by simp [requireUser])
    | some u =>
      simp only [requireUser] at h
      cases hs : getOwnedScript i.id u s with
      | error e => rw [hs] at h; exact absurd h (by simp)
      | ok sc =>
        rw [hs] at h
        simp only [Prod.mk.injEq] at h
        obtain ⟨-, rfl⟩ := h
        exact ⟨rfl, rfl, rfl⟩
  · exact absurd h (by simp)

/-- Any failing updateScript returns the store unchanged. -/
theorem updateScript_error {i : UpdateScriptInput} {user : Option String}
    {now : Nat} {s : Store} {e : ActionError} {s' : Store}
    (h : updateScript i user now s = (.error e, s')) : s' = s := by
  unfold updateScript at h
  split at h
  · cases user with
    | none =>
      simp only [requireUser, Prod.mk.injEq] at h
      exact h.2.symm
    | some u =>
      simp only [requireUser] at h
      cases hs : getOwnedScript i.id u s with
      | error e2 =>
        rw [hs] at h
        simp only [Prod.mk.injEq] at h
        exact h.2.symm
      | ok sc => rw [hs] at h; exact absurd h (by simp)
  · simp only [Prod.mk.injEq] at h
    exact h.2.symm

/-- A successful updateScriptVersion leaves the other tables alone and
replaces the versions table by the patched map over the matching id. -/
theorem updateScriptVersion_ok {i : UpdateScriptVersionInput}
    {user : Option String} {s : Store} {out : Option ScriptVersion}
    {s' : Store}
    (h : updateScriptVersion i user s = (.ok out, s')) :
    s'.scriptVersions = s.scriptVersions.map
        (fun v => if v.id == i.id then applyVersionPatch i v else v) ∧
    s'.scripts = s.scripts ∧ s'.scriptElements = s.scriptElements := by
  unfold updateScriptVersion at h
  split at h
  · cases user with
    | none => exact absurd h (by simp [requireUser])
    | some u =>
      simp only [requireUser] at h
      cases hs : getOwnedVersion i.id i.scriptId u s with
      | error e => rw [hs] at h; exact absurd h (by simp)
      | ok v =>
        rw [hs] at h
        simp only [Prod.mk.injEq] at h
        obtain ⟨-, rfl⟩ := h
        exact ⟨rfl, rfl, rfl⟩
  · exact absurd h (by simp)

/-- A successful updateScriptElement leaves the other tables alone and
replaces the elements table by the patched map over the matching id. -/
theorem updateScriptElement_ok {i : UpdateScriptElementInput}
    {user : Option String} {s : Store} {out : Option ScriptElement}
    {s' : Store}
    (h : updateScriptElement i user s = (.ok out, s')) :
    s'.scriptElements = s.scriptElements.map
        (fun e => if e.id == i.id then applyElementPatch i e else e) ∧
    s'.scripts = s.scripts ∧ s'.scriptVersions = s.scriptVersions := by
  unfold updateScriptElement at h
  split at h
  · cases user with
    | none => exact absurd h (by simp [requireUser])
    | some u =>
      simp only [requireUser] at h
      cases hs : getOwnedVersion i.scriptVersionId i.scriptId u s with
      | error e => rw [hs] at h; exact absurd h (by simp)
      | ok v =>
        rw [hs] at h
        cases hx : (s.scriptElements.filter (fun e => e.id == i.id)).head? with
        | none => rw [hx] at h; exact absurd h (by simp)
        | some x =>
          rw [hx] at h
          simp only [Prod.mk.injEq] at h
          obtain ⟨-, rfl⟩ := h
          exact ⟨rfl, rfl, rfl⟩
  · exact absurd h (by simp)

/-- Mapping a conditional patch over a table does not change any column
the patch preserves. -/
theorem map_patch_eq {α β : Type} (l : List α) (f : α → β) (patch : α → α)
    (idp : α → Bool) (h : ∀ r, f (patch r) = f r) :
    (l.map (fun r => if idp r then patch r else r)).map f = l.map f := by
  rw [List.map_map]
  apply List.map_congr_left
  intro r _
  by_cases hid : idp r
  · simp [hid, h]
  · simp [hid]

/-! ### C3: the owner of a Script is immutable under updateScript -/

/-- C3: any successful updateScript preserves, row by row, both the id and
the userId of every stored Script — the owner assigned at creation is
never changed by an accepted patch. -/
theorem claim3_ownerImmutable (i : UpdateScriptInput) (user : Option String)
    (now : Nat) (s : Store) (out : Option Script) (s' : Store)
    (h : updateScript i user now s = (.ok out, s')) :
    s'.scripts.map (fun r => (r.id, r.userId))
      = s.scripts.map (fun r => (r.id, r.userId)) := by
  obtain ⟨hs, -, -⟩ := updateScript_ok h
  rw [hs]
  exact map_patch_eq _ _ _ _ (fun r => by simp [applyScriptPatch])

/-- The run used to witness C3: user u1 patches only scriptType. -/
def c3run : Except ActionError (Option Script) × Store :=
  updateScript ⟨"s1", none, some "tv-episode", none, none, none, none⟩
    (some "u1") 7 sampleStore

/-- C3 witness: the concrete successful update leaves every (id, userId)
pair unchanged. -/
theorem claim3_witness :
    c3run.2.scripts.map (fun r => (r.id, r.userId))
      = sampleStore.scripts.map (fun r => (r.id, r.userId)) :=
  claim3_ownerImmutable ⟨"s1", none, some "tv-episode", none, none, none, none⟩
    (some "u1") 7 sampleStore (c3run.1.toOption.join) c3run.2 rfl

/-! ### C6: updatedAt is refreshed on success, untouched on failure -/

/-- C6: after a successful updateScript every stored row with the patched
id has updatedAt = now; under a monotone clock (every stored updatedAt is
at most now) each row's updatedAt is pointwise ≥ its previous value; and
any failed updateScript (validation, unauthorized, or not-found) returns
the store — hence every updatedAt — unchanged. -/
theorem claim6_updatedAtRefreshed (i : UpdateScriptInput)
    (user : Option String) (now : Nat) (s : Store) :
    (∀ out s', updateScript i user now s = (.ok out, s') →
      (∀ r' ∈ s'.scripts, r'.id = i.id → r'.updatedAt = now) ∧
      ((∀ r ∈ s.scripts, r.updatedAt ≤ now) →
        List.Forall₂ (fun r r' => r.updatedAt ≤ r'.updatedAt)
          s.scripts s'.scripts)) ∧
    (∀ e s', updateScript i user now s = (.error e, s') → s' = s) := by
  refine ⟨?_, fun e s' h => updateScript_error h⟩
  intro out s' h
  obtain ⟨hs, -, -⟩ := updateScript_ok h
  constructor
  · intro r' hr' hid
    rw [hs] at hr'
    obtain ⟨r, hr, hpr⟩ := List.mem_map.mp hr'
    by_cases hb : (r.id == i.id)
    · rw [if_pos hb] at hpr
      rw [← hpr]
      rfl
    · rw [if_neg (by simpa using hb)] at hpr
      subst hpr
      exact absurd hid (by simpa using hb)
  · intro hclock
    rw [hs, List.forall₂_map_right_iff]
    apply List.forall₂_same.mpr
    intro r hr
    by_cases hb : (r.id == i.id)
    · rw [if_pos hb]
      exact hclock r hr
    · rw [if_neg (by simpa using hb)]

/-- The run used to witness C6: user u1 patches only the title at time 7. -/
def c6run : Except ActionError (Option Script) × Store :=
  updateScript ⟨"s1", some "Heist II", none, none, none, none, none⟩
    (some "u1") 7 sampleStore

/-- C6 witness: in the concrete successful run the patched row's updatedAt
is 7 and the table's updatedAt values grow pointwise; a failing run (empty
patch) leaves the store unchanged. -/
theorem claim6_witness :
    ((∀ r' ∈ c6run.2.scripts, r'.id = "s1" → r'.updatedAt = 7) ∧
      List.Forall₂ (fun r r' => r.updatedAt ≤ r'.updatedAt)
        sampleStore.scripts c6run.2.scripts) ∧
    (updateScript ⟨"s1", none, none, none, none, none, none⟩ (some "u1") 7
        sampleStore).2 = sampleStore := by
  have h := claim6_updatedAtRefreshed
    ⟨"s1", some "Heist II", none, none, none, none, none⟩ (some "u1") 7
    sampleStore
  have hok := h.1 (c6run.1.toOption.join) c6run.2 rfl
  have herr := h.2
  refine ⟨⟨hok.1, hok.2 (by decide)⟩, ?_⟩
  exact (claim6_updatedAtRefreshed
    ⟨"s1", none, none, none, none, none, none⟩ (some "u1") 7
    sampleStore).2 validationError _ rfl

/-! ### C4: partial patch semantics -/

/-- C4: for every successful update of a Script, ScriptVersion, or
ScriptElement, every field omitted from the patch retains its prior stored
value in every row, and the non-patchable columns (ids, owner, createdAt,
the elements' scriptVersionId) never change — only explicitly supplied
fields (plus updatedAt on Script) can differ. -/
theorem claim4_partialPatch
    (ui : UpdateScriptInput) (vi : UpdateScriptVersionInput)
    (ei : UpdateScriptElementInput) (u1 u2 u3 : Option String)
    (now : Nat) (s1 s2 s3 s1' s2' s3' : Store) (o1 : Option Script)
    (o2 : Option ScriptVersion) (o3 : Option ScriptElement)
    (h1 : updateScript ui u1 now s1 = (.ok o1, s1'))
    (h2 : updateScriptVersion vi u2 s2 = (.ok o2, s2'))
    (h3 : updateScriptElement ei u3 s3 = (.ok o3, s3')) :
    (s1'.scripts.map Script.id = s1.scripts.map Script.id ∧
     s1'.scripts.map Script.userId = s1.scripts.map Script.userId ∧
     s1'.scripts.map Script.createdAt = s1.scripts.map Script.createdAt ∧
     (ui.title = none →
       s1'.scripts.map Script.title = s1.scripts.map Script.title) ∧
     (ui.scriptType = none →
       s1'.scripts.map Script.scriptType = s1.scripts.map Script.scriptType) ∧
     (ui.formatStandard = none →
       s1'.scripts.map Script.formatStandard
         = s1.scripts.map Script.formatStandard) ∧
     (ui.logline = none →
       s1'.scripts.map Script.logline = s1.scripts.map Script.logline) ∧
     (ui.status = none →
       s1'.scripts.map Script.status = s1.scripts.map Script.status) ∧
     (ui.notes = none →
       s1'.scripts.map Script.notes = s1.scripts.map Script.notes)) ∧
    (s2'.scriptVersions.map ScriptVersion.id
       = s2.scriptVersions.map ScriptVersion.id ∧
     s2'.scriptVersions.map ScriptVersion.scriptId
       = s2.scriptVersions.map ScriptVersion.scriptId ∧
     s2'.scriptVersions.map ScriptVersion.createdAt
       = s2.scriptVersions.map ScriptVersion.createdAt ∧
     (vi.versionLabel = none →
       s2'.scriptVersions.map ScriptVersion.versionLabel
         = s2.scriptVersions.map ScriptVersion.versionLabel) ∧
     (vi.isPreferred = none →
       s2'.scriptVersions.map ScriptVersion.isPreferred
         = s2.scriptVersions.map ScriptVersion.isPreferred) ∧
     (vi.rawContent = none →
       s2'.scriptVersions.map ScriptVersion.rawContent
         = s2.scriptVersions.map ScriptVersion.rawContent) ∧
     (vi.formattedContent = none →
       s2'.scriptVersions.map ScriptVersion.formattedContent
         = s2.scriptVersions.map ScriptVersion.formattedContent)) ∧
    (s3'.scriptElements.map ScriptElement.id
       = s3.scriptElements.map ScriptElement.id ∧
     s3'.scriptElements.map ScriptElement.scriptVersionId
       = s3.scriptElements.map ScriptElement.scriptVersionId ∧
     s3'.scriptElements.map ScriptElement.createdAt
       = s3.scriptElements.map ScriptElement.createdAt ∧
     (ei.orderIndex = none →
       s3'.scriptElements.map ScriptElement.orderIndex
         = s3.scriptElements.map ScriptElement.orderIndex) ∧
     (ei.elementType = none →
       s3'.scriptElements.map ScriptElement.elementType
         = s3.scriptElements.map ScriptElement.elementType) ∧
     (ei.characterName = none →
       s3'.scriptElements.map ScriptElement.characterName
         = s3.scriptElements.map ScriptElement.characterName) ∧
     (ei.content = none →
       s3'.scriptElements.map ScriptElement.content
         = s3.scriptElements.map ScriptElement.content)) := by
  obtain ⟨e1, -, -⟩ := updateScript_ok h1
  obtain ⟨e2, -, -⟩ := updateScriptVersion_ok h2
  obtain ⟨e3, -, -⟩ := updateScriptElement_ok h3
  rw [e1, e2, e3]
  refine ⟨⟨?_, ?_, ?_, ?_, ?_, ?_, ?_, ?_, ?_⟩,
    ⟨?_, ?_, ?_, ?_, ?_, ?_, ?_⟩, ⟨?_, ?_, ?_, ?_, ?_, ?_, ?_⟩⟩
  · exact map_patch_eq _ _ _ _ (fun r => rfl)
  · exact map_patch_eq _ _ _ _ (fun r => rfl)
  · exact map_patch_eq _ _ _ _ (fun r => rfl)
  · intro hn; exact map_patch_eq _ _ _ _ (fun r => by simp [applyScriptPatch, hn])
  · intro hn; exact map_patch_eq _ _ _ _ (fun r => by simp [applyScriptPatch, hn])
  · intro hn; exact map_patch_eq _ _ _ _ (fun r => by simp [applyScriptPatch, hn])
  · intro hn; exact map_patch_eq _ _ _ _ (fun r => by simp [applyScriptPatch, hn])
  · intro hn; exact map_patch_eq _ _ _ _ (fun r => by simp [applyScriptPatch, hn])
  · intro hn; exact map_patch_eq _ _ _ _ (fun r => by simp [applyScriptPatch, hn])
  · exact map_patch_eq _ _ _ _ (fun v => rfl)
  · exact map_patch_eq _ _ _ _ (fun v => rfl)
  · exact map_patch_eq _ _ _ _ (fun v => rfl)
  · intro hn; exact map_patch_eq _ _ _ _ (fun v => by simp [applyVersionPatch, hn])
  · intro hn; exact map_patch_eq _ _ _ _ (fun v => by simp [applyVersionPatch, hn])
  · intro hn; exact map_patch_eq _ _ _ _ (fun v => by simp [applyVersionPatch, hn])
  · intro hn; exact map_patch_eq _ _ _ _ (fun v => by simp [applyVersionPatch, hn])
  · exact map_patch_eq _ _ _ _ (fun e => rfl)
  · exact map_patch_eq _ _ _ _ (fun e => rfl)
  · exact map_patch_eq _ _ _ _ (fun e => rfl)
  · intro hn; exact map_patch_eq _ _ _ _ (fun e => by simp [applyElementPatch, hn])
  · intro hn; exact map_patch_eq _ _ _ _ (fun e => by simp [applyElementPatch, hn])
  · intro hn; exact map_patch_eq _ _ _ _ (fun e => by simp [applyElementPatch, hn])
  · intro hn; exact map_patch_eq _ _ _ _ (fun e => by simp [applyElementPatch, hn])

/-- Witness run for C4 on Scripts: patch only status. -/
def c4run1 : Except ActionError (Option Script) × Store :=
  updateScript ⟨"s1", none, none, none, none, some "draft", none⟩
    (some "u1") 9 sampleStore

/-- Witness run for C4 on ScriptVersions: patch only versionLabel. -/
def c4run2 : Except ActionError (Option ScriptVersion) × Store :=
  updateScriptVersion ⟨"v1", "s1", some "v2-label", none, none, none⟩
    (some "u1") sampleStore

/-- Witness run for C4 on ScriptElements: patch only orderIndex. -/
def c4run3 : Except ActionError (Option ScriptElement) × Store :=
  updateScriptElement ⟨"e1", "s1", "v1", some 5, none, none, none⟩
    (some "u1") sampleStore

/-- C4 witness: in the three concrete runs, the omitted columns (title,
rawContent, content) are byte-identical before and after. -/
theorem claim4_witness :
    c4run1.2.scripts.map Script.title
      = sampleStore.scripts.map Script.title ∧
    c4run2.2.scriptVersions.map ScriptVersion.rawContent
      = sampleStore.scriptVersions.map ScriptVersion.rawContent ∧
    c4run3.2.scriptElements.map ScriptElement.content
      = sampleStore.scriptElements.map ScriptElement.content := by
  have h := claim4_partialPatch
    ⟨"s1", none, none, none, none, some "draft", none⟩
    ⟨"v1", "s1", some "v2-label", none, none, none⟩
    ⟨"e1", "s1", "v1", some 5, none, none, none⟩
    (some "u1") (some "u1") (some "u1") 9
    sampleStore sampleStore sampleStore c4run1.2 c4run2.2 c4run3.2
    (c4run1.1.toOption.join) (c4run2.1.toOption.join) (c4run3.1.toOption.join)
    rfl rfl rfl
  obtain ⟨⟨-, -, -, ht, -, -, -, -, -⟩, ⟨-, -, -, -, -, hr, -⟩,
    ⟨-, -, -, -, -, -, hc⟩⟩ := h
  exact ⟨ht rfl, hr rfl, hc rfl⟩

/-! ### C7: zero-row deletes are hard NOT_FOUND errors -/

/-- C7: deleteScriptVersion and deleteScriptElement delete by id; a
success always removed at least one row, and every zero-match situation —
a version id absent under a valid owned scriptId, or an element id absent
under a valid owned chain — produces the NOT_FOUND error with the store
unchanged, never a no-op success. -/
theorem claim7_zeroRowDeleteIsError
    (dvi : DeleteScriptVersionInput) (dei : DeleteScriptElementInput)
    (user : Option String) (s t : Store) :
    (∀ s', deleteScriptVersion dvi user s = (.ok (), s') →
      (∃ v ∈ s.scriptVersions, v.id = dvi.id) ∧
      s'.scriptVersions
        = s.scriptVersions.filter (fun v => !(v.id == dvi.id)) ∧
      s'.scriptVersions.length < s.scriptVersions.length) ∧
    (∀ u, user = some u → deleteScriptVersionValid dvi = true →
      (∃ sc ∈ s.scripts, sc.id = dvi.scriptId ∧ sc.userId = u) →
      (∀ v ∈ s.scriptVersions, ¬(v.id = dvi.id ∧ v.scriptId = dvi.scriptId)) →
      deleteScriptVersion dvi user s = (.error versionNotFoundError, s)) ∧
    (∀ t', deleteScriptElement dei user t = (.ok (), t') →
      (∃ e ∈ t.scriptElements, e.id = dei.id) ∧
      t'.scriptElements
        = t.scriptElements.filter (fun e => !(e.id == dei.id)) ∧
      t'.scriptElements.length < t.scriptElements.length) ∧
    (∀ u, user = some u → deleteScriptElementValid dei = true →
      (∃ sc ∈ t.scripts, sc.id = dei.scriptId ∧ sc.userId = u) →
      (∃ v ∈ t.scriptVersions,
        v.id = dei.scriptVersionId ∧ v.scriptId = dei.scriptId) →
      (∀ e ∈ t.scriptElements, e.id ≠ dei.id) →
      deleteScriptElement dei user t = (.error elementNotFoundError, t)) := by
  refine ⟨?_, ?_, ?_, ?_⟩
  · intro s' h
    unfold deleteScriptVersion at h
    split at h
    · cases user with
      | none => exact absurd h (by simp [requireUser])
      | some u =>
        simp only [requireUser] at h
        cases hv : getOwnedVersion dvi.id dvi.scriptId u s with
        | error e => rw [hv] at h; exact absurd h (by simp)
        | ok v =>
          simp only [hv] at h
          obtain ⟨-, hvm, hvid, -⟩ := getOwnedVersion_ok hv
          split at h
          · exact absurd h (by simp)
          · next hne =>
              obtain rfl : s' = { s with scriptVersions :=
                  s.scriptVersions.filter (fun v => !(v.id == dvi.id)) } :=
                congrArg Prod.snd h.symm
              refine ⟨⟨v, hvm, hvid⟩, rfl, ?_⟩
              exact Nat.sub_ne_zero_iff_lt.mp (by simpa using hne)
    · exact absurd h (by simp)
  · intro u hu hvalid hsc hnone
    subst hu
    have hv := getOwnedVersion_none hsc hnone
    simp [deleteScriptVersion, hvalid, requireUser, hv]
  · intro t' h
    unfold deleteScriptElement at h
    split at h
    · cases user with
      | none => exact absurd h (by simp [requireUser])
      | some u =>
        simp only [requireUser] at h
        cases hv : getOwnedVersion dei.scriptVersionId dei.scriptId u t with
        | error e => rw [hv] at h; exact absurd h (by simp)
        | ok v =>
          simp only [hv] at h
          split at h
          · exact absurd h (by simp)
          · next hne =>
              obtain rfl : t' = { t with scriptElements :=
                  t.scriptElements.filter (fun e => !(e.id == dei.id)) } :=
                congrArg Prod.snd h.symm
              have hlt : (t.scriptElements.filter
                  (fun e => !(e.id == dei.id))).length
                    < t.scriptElements.length :=
                Nat.sub_ne_zero_iff_lt.mp (by simpa using hne)
              refine ⟨?_, rfl, hlt⟩
              by_contra hno
              push_neg at hno
              have heq : t.scriptElements.filter (fun e => !(e.id == dei.id))
                  = t.scriptElements := by
                apply List.filter_eq_self.mpr
                intro e he
                simpa using fun hc => (hno e he (by simpa using hc)).elim
              rw [heq] at hlt
              exact lt_irrefl _ hlt
    · exact absurd h (by simp)
  · intro u hu hvalid hsc hver hno
    subst hu
    obtain ⟨v, hv⟩ := getOwnedVersion_exists_ok hsc hver
    have hrem : t.scriptElements.filter (fun e => !(e.id == dei.id))
        = t.scriptElements := by
      apply List.filter_eq_self.mpr
      intro e he
      simpa using hno e he
    simp [deleteScriptElement, hvalid, requireUser, hv, hrem]

/-- The run used to witness C7's success half: u2 deletes version v2. -/
def c7run : Except ActionError Unit × Store :=
  deleteScriptVersion ⟨"v2", "s2"⟩ (some "u2") sampleStore

/-- C7 witness: deleting a nonexistent version id under the owned script
s1 and a nonexistent element id under the owned chain both return
NOT_FOUND with the store unchanged, while a genuine delete removes a row. -/
theorem claim7_witness :
    deleteScriptVersion ⟨"vZ", "s1"⟩ (some "u1") sampleStore
      = (.error versionNotFoundError, sampleStore) ∧
    deleteScriptElement ⟨"eZ", "s1", "v1"⟩ (some "u1") sampleStore
      = (.error elementNotFoundError, sampleStore) ∧
    c7run.2.scriptVersions.length < sampleStore.scriptVersions.length := by
  have h1 := claim7_zeroRowDeleteIsError ⟨"vZ", "s1"⟩ ⟨"eZ", "s1", "v1"⟩
    (some "u1") sampleStore sampleStore
  have h2 := claim7_zeroRowDeleteIsError ⟨"v2", "s2"⟩ ⟨"eZ", "s1", "v1"⟩
    (some "u2") sampleStore sampleStore
  refine ⟨?_, ?_, ?_⟩
  · exact h1.2.1 "u1" rfl rfl
      ⟨sampleScript, by simp [sampleStore], rfl, rfl⟩ (by decide)
  · exact h1.2.2.2 "u1" rfl rfl
      ⟨sampleScript, by simp [sampleStore], rfl, rfl⟩
      ⟨sampleVersion, by simp [sampleStore], rfl, rfl⟩ (by decide)
  · exact (h2.1 c7run.2 rfl).2.2

/-! ### C8: the preferredOnly filter is a pure refinement of the list -/

/-- Filtering by a conjunction equals filtering successively. -/
theorem filter_and_eq_filter_filter {α : Type} (l : List α) (p q : α → Bool) :
    l.filter (fun a => p a && q a) = (l.filter p).filter q := by
  rw [List.filter_filter]
  apply List.filter_congr
  intro a _
  exact Bool.and_comm (p a) (q a)

/-- C8: whenever both calls succeed, the items of
listScriptVersions(scriptId, preferredOnly = true) are exactly the
isPreferred-filtered items of listScriptVersions(scriptId,
preferredOnly = false): a subset in which every item is preferred; both
counts are the item counts and neither call changes the store. -/
theorem claim8_preferredSubset (sid : String) (user : Option String)
    (s : Store) :
    ∀ itemsT nT sT itemsF nF sF,
      listScriptVersions ⟨sid, some true⟩ user s = (.ok (itemsT, nT), sT) →
      listScriptVersions ⟨sid, some false⟩ user s = (.ok (itemsF, nF), sF) →
      itemsT = itemsF.filter (fun v => v.isPreferred) ∧
      (∀ v ∈ itemsT, v ∈ itemsF ∧ v.isPreferred = true) ∧
      nT = itemsT.length ∧ nF = itemsF.length ∧ sT = s ∧ sF = s := by
  intro itemsT nT sT itemsF nF sF hT hF
  unfold listScriptVersions at hT hF
  split at hT
  · cases user with
    | none =>
      exact absurd hT (by simp [requireUser])
    | some u =>
      simp only [requireUser] at hT hF
      rw [if_pos (by assumption)] at hF
      cases hsc : getOwnedScript sid u s with
      | error e =>
        rw [hsc] at hT
        exact absurd hT (by simp)
      | ok sc =>
        rw [hsc] at hT hF
        simp only [Option.getD_some, if_pos, if_neg, Prod.mk.injEq,
          Except.ok.injEq] at hT hF
        obtain ⟨⟨hiT, hnT⟩, hsT⟩ := hT
        obtain ⟨⟨hiF, hnF⟩, hsF⟩ := hF
        subst hiT
        subst hiF
        have hfilter : s.scriptVersions.filter
            (fun v => v.scriptId == sid && v.isPreferred == true)
              = (s.scriptVersions.filter (fun v => v.scriptId == sid)).filter
                (fun v => v.isPreferred) := by
          rw [← filter_and_eq_filter_filter]
          apply List.filter_congr
          intro v _
          simp
        refine ⟨hfilter, ?_, hnT.symm, hnF.symm, hsT.symm, hsF.symm⟩
        intro v hv
        rw [hfilter] at hv
        rw [List.mem_filter] at hv
        exact ⟨hv.1, hv.2⟩
  · exact absurd hT (by simp)

/-- C8 witness: for script s1 in the sample store the preferred-only items
are exactly the preferred subset of the full list. -/
theorem claim8_witness :
    ([sampleVersion3] : List ScriptVersion)
      = [sampleVersion, sampleVersion3].filter (fun v => v.isPreferred) ∧
    sampleVersion3 ∈ [sampleVersion, sampleVersion3] ∧
    sampleVersion3.isPreferred = true := by
  have h := claim8_preferredSubset "s1" (some "u1") sampleStore
    [sampleVersion3] 1 sampleStore [sampleVersion, sampleVersion3] 2
    sampleStore rfl rfl
  exact ⟨h.1, (h.2.1 sampleVersion3 (by simp)).1,
    (h.2.1 sampleVersion3 (by simp)).2⟩

/-! ### C1: the ScriptElement ownership chain -/

/-- C1 counterexample: user u1 owns script s1 with version v1, while
element e1 belongs to version v2 of user u2's script s2.  Called with the
claimed chain (s1, v1), updateScriptElement nevertheless modifies e1 —
whose own scriptVersionId is v2, not v1 — and deleteScriptElement deletes
it, because both locate the element by id alone after the version check.
This refutes the claim that these operations never modify or delete an
element whose scriptVersionId differs from the claimed one. -/
theorem claim1_counterexample :
    sampleElement.scriptVersionId = "v2" ∧
    sampleVersion2.scriptId = "s2" ∧
    sampleScript2.userId = "u2" ∧
    (("v2" : String) ≠ "v1" ∧ ("u2" : String) ≠ "u1") ∧
    (updateScriptElement ⟨"e1", "s1", "v1", none, none, none, some "hacked"⟩
        (some "u1") sampleStore).1
      = .ok (some { sampleElement with content := "hacked" }) ∧
    (updateScriptElement ⟨"e1", "s1", "v1", none, none, none, some "hacked"⟩
        (some "u1") sampleStore).2.scriptElements
      = [{ sampleElement with content := "hacked" }] ∧
    deleteScriptElement ⟨"e1", "s1", "v1"⟩ (some "u1") sampleStore
      = (.ok (), { sampleStore with scriptElements := [] }) :=
  ⟨rfl, rfl, rfl, by decide, rfl, rfl, rfl⟩

/-- C1 amended: every ScriptElement operation checks the full ownership
chain — on success the claimed scriptVersionId names a version of the
claimed script and that script belongs to the caller; create inserts only
under the claimed scriptVersionId and list returns only elements carrying
it; and a request naming a scriptVersionId that belongs to a different
scriptId than claimed fails with NOT_FOUND for all four operations.
However, updateScriptElement and deleteScriptElement locate the element by
id alone, so they may touch an element whose own scriptVersionId differs
from the claimed one (see the counterexample). -/
theorem claim1_elementOwnershipChain
    (ci : CreateScriptElementInput) (ui : UpdateScriptElementInput)
    (di : DeleteScriptElementInput) (li : ListScriptElementsInput)
    (user : Option String) (now : Nat) (newId : String) (s : Store) :
    (∀ out s', createScriptElement ci user now newId s = (.ok out, s') →
      (∃ u, user = some u ∧
        (∃ sc ∈ s.scripts, sc.id = ci.scriptId ∧ sc.userId = u) ∧
        (∃ v ∈ s.scriptVersions,
          v.id = ci.scriptVersionId ∧ v.scriptId = ci.scriptId)) ∧
      s'.scriptElements = s.scriptElements ++ [newElementRow ci now newId] ∧
      (newElementRow ci now newId).scriptVersionId = ci.scriptVersionId) ∧
    (∀ items n s', listScriptElements li user s = (.ok (items, n), s') →
      (∃ u, user = some u ∧
        (∃ sc ∈ s.scripts, sc.id = li.scriptId ∧ sc.userId = u) ∧
        (∃ v ∈ s.scriptVersions,
          v.id = li.scriptVersionId ∧ v.scriptId = li.scriptId)) ∧
      (∀ e ∈ items, e ∈ s.scriptElements ∧
        e.scriptVersionId = li.scriptVersionId) ∧ s' = s) ∧
    (∀ out s', updateScriptElement ui user s = (.ok out, s') →
      ∃ u, user = some u ∧
        (∃ sc ∈ s.scripts, sc.id = ui.scriptId ∧ sc.userId = u) ∧
        (∃ v ∈ s.scriptVersions,
          v.id = ui.scriptVersionId ∧ v.scriptId = ui.scriptId)) ∧
    (∀ s', deleteScriptElement di user s = (.ok (), s') →
      ∃ u, user = some u ∧
        (∃ sc ∈ s.scripts, sc.id = di.scriptId ∧ sc.userId = u) ∧
        (∃ v ∈ s.scriptVersions,
          v.id = di.scriptVersionId ∧ v.scriptId = di.scriptId)) ∧
    (∀ u, user = some u →
      createScriptElementValid ci = true →
      (∃ sc ∈ s.scripts, sc.id = ci.scriptId ∧ sc.userId = u) →
      (∀ v ∈ s.scriptVersions,
        ¬(v.id = ci.scriptVersionId ∧ v.scriptId = ci.scriptId)) →
      createScriptElement ci user now newId s
        = (.error versionNotFoundError, s)) ∧
    (∀ u, user = some u →
      updateScriptElementValid ui = true →
      (∃ sc ∈ s.scripts, sc.id = ui.scriptId ∧ sc.userId = u) →
      (∀ v ∈ s.scriptVersions,
        ¬(v.id = ui.scriptVersionId ∧ v.scriptId = ui.scriptId)) →
      updateScriptElement ui user s = (.error versionNotFoundError, s)) ∧
    (∀ u, user = some u →
      deleteScriptElementValid di = true →
      (∃ sc ∈ s.scripts, sc.id = di.scriptId ∧ sc.userId = u) →
      (∀ v ∈ s.scriptVersions,
        ¬(v.id = di.scriptVersionId ∧ v.scriptId = di.scriptId)) →
      deleteScriptElement di user s = (.error versionNotFoundError, s)) ∧
    (∀ u, user = some u →
      listScriptElementsValid li = true →
      (∃ sc ∈ s.scripts, sc.id = li.scriptId ∧ sc.userId = u) →
      (∀ v ∈ s.scriptVersions,
        ¬(v.id = li.scriptVersionId ∧ v.scriptId = li.scriptId)) →
      listScriptElements li user s = (.error versionNotFoundError, s)) := by
  refine ⟨?_, ?_, ?_, ?_, ?_, ?_, ?_, ?_⟩
  · intro out s' h
    unfold createScriptElement at h
    split at h
    · cases user with
      | none => exact absurd h (by simp [requireUser])
      | some u =>
        simp only [requireUser] at h
        cases hv : getOwnedVersion ci.scriptVersionId ci.scriptId u s with
        | error e => rw [hv] at h; exact absurd h (by simp)
        | ok v =>
          simp only [hv] at h
          obtain ⟨hsc, hvm, hvid, hvsid⟩ := getOwnedVersion_ok hv
          obtain rfl : s' = { s with scriptElements :=
              s.scriptElements ++ [newElementRow ci now newId] } :=
            (congrArg Prod.snd h).symm
          exact ⟨⟨u, rfl, hsc, ⟨v, hvm, hvid, hvsid⟩⟩, rfl, rfl⟩
    · exact absurd h (by simp)
  · intro items n s' h
    unfold listScriptElements at h
    split at h
    · cases user with
      | none => exact absurd h (by simp [requireUser])
      | some u =>
        simp only [requireUser] at h
        cases hv : getOwnedVersion li.scriptVersionId li.scriptId u s with
        | error e => rw [hv] at h; exact absurd h (by simp)
        | ok v =>
          simp only [hv, Prod.mk.injEq, Except.ok.injEq] at h
          obtain ⟨hsc, hvm, hvid, hvsid⟩ := getOwnedVersion_ok hv
          obtain ⟨⟨hitems, hn⟩, hs⟩ := h
          subst hitems
          refine ⟨⟨u, rfl, hsc, ⟨v, hvm, hvid, hvsid⟩⟩, ?_, hs.symm⟩
          intro e he
          rw [List.mem_filter] at he
          exact ⟨he.1, by simpa using he.2⟩
    · exact absurd h (by simp)
  · intro out s' h
    unfold updateScriptElement at h
    split at h
    · cases user with
      | none => exact absurd h (by simp [requireUser])
      | some u =>
        simp only [requireUser] at h
        cases hv : getOwnedVersion ui.scriptVersionId ui.scriptId u s with
        | error e => rw [hv] at h; exact absurd h (by simp)
        | ok v =>
          obtain ⟨hsc, hvm, hvid, hvsid⟩ := getOwnedVersion_ok hv
          exact ⟨u, rfl, hsc, ⟨v, hvm, hvid, hvsid⟩⟩
    · exact absurd h (by simp)
  · intro s' h
    unfold deleteScriptElement at h
    split at h
    · cases user with
      | none => exact absurd h (by simp [requireUser])
      | some u =>
        simp only [requireUser] at h
        cases hv : getOwnedVersion di.scriptVersionId di.scriptId u s with
        | error e => rw [hv] at h; exact absurd h (by simp)
        | ok v =>
          obtain ⟨hsc, hvm, hvid, hvsid⟩ := getOwnedVersion_ok hv
          exact ⟨u, rfl, hsc, ⟨v, hvm, hvid, hvsid⟩⟩
    · exact absurd h (by simp)
  · intro u hu hvalid hsc hnone
    subst hu
    have hv := getOwnedVersion_none hsc hnone
    simp [createScriptElement, hvalid, requireUser, hv]
  · intro u hu hvalid hsc hnone
    subst hu
    have hv := getOwnedVersion_none hsc hnone
    simp [updateScriptElement, hvalid, requireUser, hv]
  · intro u hu hvalid hsc hnone
    subst hu
    have hv := getOwnedVersion_none hsc hnone
    simp [deleteScriptElement, hvalid, requireUser, hv]
  · intro u hu hvalid hsc hnone
    subst hu
    have hv := getOwnedVersion_none hsc hnone
    simp [listScriptElements, hvalid, requireUser, hv]

/-- The run used to witness C1's create half. -/
def c1run : Except ActionError (Option ScriptElement) × Store :=
  createScriptElement ⟨"s1", "v1", 0, "scene-heading", none, "INT. BANK"⟩
    (some "u1") 3 "e9" sampleStore

/-- C1 witness: a successful create appends the element under the claimed
scriptVersionId, and a create naming version v1 under the wrong script s2
fails with the NOT_FOUND version error. -/
theorem claim1_witness :
    c1run.2.scriptElements
      = sampleStore.scriptElements
          ++ [newElementRow ⟨"s1", "v1", 0, "scene-heading", none,
                "INT. BANK"⟩ 3 "e9"] ∧
    createScriptElement ⟨"s2", "v1", 0, "action", none, "X"⟩ (some "u2") 3
        "e9" sampleStore = (.error versionNotFoundError, sampleStore) := by
  have h1 := claim1_elementOwnershipChain
    ⟨"s1", "v1", 0, "scene-heading", none, "INT. BANK"⟩
    ⟨"e1", "s1", "v1", some 1, none, none, none⟩ ⟨"e1", "s1", "v1"⟩
    ⟨"s1", "v1"⟩ (some "u1") 3 "e9" sampleStore
  have h2 := claim1_elementOwnershipChain
    ⟨"s2", "v1", 0, "action", none, "X"⟩
    ⟨"e1", "s1", "v1", some 1, none, none, none⟩ ⟨"e1", "s1", "v1"⟩
    ⟨"s1", "v1"⟩ (some "u2") 3 "e9" sampleStore
  refine ⟨(h1.1 (c1run.1.toOption.join) c1run.2 rfl).2.1, ?_⟩
  exact h2.2.2.2.2.1 "u2" rfl rfl
    ⟨sampleScript2, by simp [sampleStore], rfl, rfl⟩ (by decide)

end ScriptFormatter
